import Mathlib

/-!
Shallow embedding of the FoodAIBE core (src/api/core/{search,simple,router,
prompt,gemini}.py), written to check the natural-language specification
against the code.  Python functions become Lean functions; Python machine
operations are modelled explicitly:
  * Python `int` is `Int` (arbitrary precision in both).
  * Python floor division `//` is `Int.fdiv`.
  * A raised exception is `Option`/`Except` failure.
  * A Python `set` of ids is a list with membership tests.
  * `str.lower()` is modelled as ASCII lowering (every string the theorems
    evaluate on is already lower case, as in `SimpleQueryHandler.parse_intent`
    which lower-cases before matching).
  * `str.strip()` strips the ASCII whitespace characters.
  * The `re` regular expressions of the source are embedded as explicit
    pattern syntax trees and run by a backtracking matcher that reproduces
    `re.search` semantics (leftmost match, left-biased alternation, lazy and
    greedy quantifiers); every quantifier in the source applies to a
    single-character item, so the matcher recurses structurally.
-/

namespace FoodAI

/-- ASCII case folding used to model `re.I` / `str.lower` on the (already
lower-case) inputs handled in this development. -/
def asciiLower (c : Char) : Char :=
  if 'A' ≤ c ∧ c ≤ 'Z' then Char.ofNat (c.toNat + 32) else c

/-- The ASCII whitespace characters Python's `str.strip()` and `\s` use. -/
def isPyWhitespace (c : Char) : Bool :=
  c = ' ' ∨ c = '\t' ∨ c = '\n' ∨ c = '\r' ∨ c = '\x0b' ∨ c = '\x0c'

/-- `str.strip()` on a character list: drop whitespace from both ends. -/
def stripChars (l : List Char) : List Char :=
  ((l.dropWhile isPyWhitespace).reverse.dropWhile isPyWhitespace).reverse

/-- `str.strip()`. -/
def pystrip (s : String) : String := ⟨stripChars s.data⟩

/-- `str.lower()` (ASCII model, see header comment). -/
def pylower (s : String) : String := ⟨s.data.map asciiLower⟩

/-- `models.FoodItem` (src/api/models.py): the record shape the core passes
around.  Prices are Python ints; a value ≤ 1 means "unknown". -/
structure FoodItem where
  id       : Int
  ten_quan : String
  ten_mon  : String
  dia_chi  : String
  quan     : String
  thanh_pho : String
  gia_min  : Int
  gia_max  : Int
  note     : String
deriving DecidableEq, Repr

end FoodAI

namespace FoodAI.SearchService

/-- `VALID_CITIES` from src/api/core/search.py. -/
def VALID_CITIES : List String :=
  ["ha_noi", "ho_chi_minh", "da_nang", "hai_phong", "ha_long", "thanh_hoa"]

/-- One step of the loop body of `SearchService._merge`: the accumulator is
the `seen` id set (modelled as a list) and the `merged` output list. -/
def mergeStep (acc : List Int × List FoodItem) (item : FoodItem) :
    List Int × List FoodItem :=
  if acc.1.contains item.id then acc else (item.id :: acc.1, acc.2 ++ [item])

/-- `SearchService._merge` (src/api/core/search.py, lines 314-322): iterate
`[*priority, *secondary]`, keep the first occurrence of each id, truncate to
`top_k`. -/
def merge (priority secondary : List FoodItem) (top_k : Nat) : List FoodItem :=
  (((priority ++ secondary).foldl mergeStep ([], [])).2).take top_k

end FoodAI.SearchService

namespace FoodAI

/-- First-occurrence deduplication by id, given the ids already seen.  This
is the specification-side description of the merge ("keep the first
occurrence of each id, drop later duplicates"); the theorems relate it to
`SearchService.merge` as implemented. -/
def dedupFrom (seen : List Int) : List FoodItem → List FoodItem
  | [] => []
  | x :: xs =>
      if seen.contains x.id then dedupFrom seen xs
      else x :: dedupFrom (x.id :: seen) xs

/-- The fold in `SearchService.merge` computes `dedupFrom`. -/
theorem mergeFold_eq_dedupFrom (l : List FoodItem) :
    ∀ (seen : List Int) (acc : List FoodItem),
      (l.foldl SearchService.mergeStep (seen, acc)).2 = acc ++ dedupFrom seen l := by
  induction l with
  | nil => intro seen acc; simp [dedupFrom]
  | cons x xs ih =>
      intro seen acc
      by_cases h : x.id ∈ seen
      · simp [SearchService.mergeStep, h, dedupFrom, ih]
      · simp [SearchService.mergeStep, h, dedupFrom, ih]

/-- `SearchService.merge` equals first-occurrence dedup of the concatenation,
truncated. -/
theorem merge_eq_dedup (priority secondary : List FoodItem) (top_k : Nat) :
    SearchService.merge priority secondary top_k
      = (dedupFrom [] (priority ++ secondary)).take top_k := by
  unfold SearchService.merge
  rw [mergeFold_eq_dedupFrom]
  simp

/-- The ids produced by `dedupFrom seen l` avoid `seen` and are pairwise
distinct. -/
theorem dedupFrom_ids_nodup (l : List FoodItem) :
    ∀ seen : List Int,
      ((dedupFrom seen l).map (·.id)).Nodup
        ∧ ∀ x ∈ dedupFrom seen l, x.id ∉ seen := by
  induction l with
  | nil => intro seen; simp [dedupFrom]
  | cons x xs ih =>
      intro seen
      by_cases h : x.id ∈ seen
      · simpa [dedupFrom, h] using ih seen
      · obtain ⟨hnd, hav⟩ := ih (x.id :: seen)
        have hstep : dedupFrom seen (x :: xs) = x :: dedupFrom (x.id :: seen) xs := by
          simp [dedupFrom, h]
        rw [hstep]
        refine ⟨?_, ?_⟩
        · rw [List.map_cons, List.nodup_cons]
          refine ⟨?_, hnd⟩
          intro hmem
          obtain ⟨y, hy, hyid⟩ := List.mem_map.mp hmem
          exact hav y hy (by simp [hyid])
        · intro y hy
          rcases List.mem_cons.mp hy with rfl | hy'
          · exact h
          · intro hc
            exact hav y hy' (by simp [hc])

/-! ### A small regular-expression engine

Every quantifier appearing in the source's patterns (`\s+`, `\s*`, `.+?`,
`.+`, `\d+`) applies to a single-character item, so quantified items are
restricted to single-character matchers and the backtracking matcher is
structurally recursive.  Result lists are ordered by backtracking priority
(leftmost alternative first, greedy longest-first, lazy shortest-first),
reproducing Python `re` semantics. -/

/-- Single-character matchers: literal (case-folded), character class,
`.` (anything but newline), `\s`, `\d`. -/
inductive CharM where
  | lit   (c : Char)
  | cls   (cs : List Char)
  | any
  | ws
  | digit
deriving DecidableEq, Repr

def CharM.accepts : CharM → Char → Bool
  | .lit c,  d => asciiLower c == asciiLower d
  | .cls cs, d => cs.any fun c => asciiLower c == asciiLower d
  | .any,    d => d != '\n'
  | .ws,     d => isPyWhitespace d
  | .digit,  d => '0' ≤ d && d ≤ '9'

/-- Pattern syntax: empty, single char, sequence, alternation (left-biased),
capturing group `n`, greedy plus, lazy plus, greedy star, optional `(?:r)?`,
and `$`. -/
inductive Re where
  | eps
  | ch    (m : CharM)
  | seq   (a b : Re)
  | alt   (a b : Re)
  | grp   (n : Nat) (r : Re)
  | plusG (m : CharM)
  | plusL (m : CharM)
  | starG (m : CharM)
  | opt   (r : Re)
  | eol
deriving Repr

/-- Length of the maximal run of characters accepted by `m` at the head. -/
def maxRun (m : CharM) : List Char → Nat
  | [] => 0
  | c :: cs => if m.accepts c then maxRun m cs + 1 else 0

/-- Captures: group index ↦ consumed characters. -/
abbrev Caps := List (Nat × List Char)

/-- All ways a pattern can match a prefix of `s`, as `(rest, captures)`
pairs in backtracking priority order. -/
def matchRe : Re → List Char → Caps → List (List Char × Caps)
  | .eps, s, caps => [(s, caps)]
  | .ch m, s, caps =>
      match s with
      | [] => []
      | c :: rest => if m.accepts c then [(rest, caps)] else []
  | .seq a b, s, caps =>
      (matchRe a s caps).flatMap fun rc => matchRe b rc.1 rc.2
  | .alt a b, s, caps => matchRe a s caps ++ matchRe b s caps
  | .grp n r, s, caps =>
      (matchRe r s caps).map fun rc =>
        (rc.1, (n, s.take (s.length - rc.1.length)) :: rc.2)
  | .plusG m, s, caps =>
      let n := maxRun m s
      (List.range n).map fun i => (s.drop (n - i), caps)
  | .plusL m, s, caps =>
      let n := maxRun m s
      (List.range n).map fun i => (s.drop (i + 1), caps)
  | .starG m, s, caps =>
      let n := maxRun m s
      (List.range (n + 1)).map fun i => (s.drop (n - i), caps)
  | .opt r, s, caps => matchRe r s caps ++ [(s, caps)]
  | .eol, s, caps =>
      if s = [] ∨ s = ['\n'] then [(s, caps)] else []

/-- `re.search` at one start position: highest-priority match, if any. -/
def searchAt (r : Re) (s : List Char) : Option Caps :=
  match matchRe r s [] with
  | [] => none
  | rc :: _ => some rc.2

/-- `re.search`: try each start position left to right. -/
def searchChars (r : Re) : List Char → Option Caps
  | [] => searchAt r []
  | s@(_ :: rest) =>
      match searchAt r s with
      | some caps => some caps
      | none => searchChars r rest

def reSearch (r : Re) (s : String) : Option Caps := searchChars r s.data

/-- Boolean `re.search` (used where the source only tests for a match). -/
def reTest (r : Re) (s : String) : Bool := (reSearch r s).isSome

/-- `m.group(n)` on a successful search, as a string. -/
def capGroup (caps : Caps) (n : Nat) : Option String :=
  (caps.lookup n).map fun l => ⟨l⟩

/-- Concatenate a list of patterns. -/
def rcat (rs : List Re) : Re := rs.foldr Re.seq Re.eps

/-- A literal string pattern (each character case-folded). -/
def rlit (s : String) : Re := rcat (s.data.map fun c => Re.ch (.lit c))

/-- A character class `[...]` from the characters of a string. -/
def rcls (s : String) : Re := Re.ch (.cls s.data)

end FoodAI

namespace FoodAI.SimpleQueryHandler

open FoodAI

/-- The pattern of `_try_compare` (src/api/core/simple.py line 53):
`so s[aá]nh\s+(.+?)\s+(?:v[aà]|v[oớ]i|vs)\s+(.+?)(?:\s|$)`. -/
def reCompare : Re :=
  rcat [rlit "so s", rcls "aá", rlit "nh", Re.plusG .ws,
        Re.grp 1 (Re.plusL .any), Re.plusG .ws,
        Re.alt (rcat [rlit "v", rcls "aà"])
          (Re.alt (rcat [rlit "v", rcls "oớ", rlit "i"]) (rlit "vs")),
        Re.plusG .ws, Re.grp 2 (Re.plusL .any),
        Re.alt (Re.ch .ws) Re.eol]

/-- The pattern of `_try_price` (line 57):
`(.+?)\s+(?:gi[aá] bao nhi[eê]u|bao nhi[eê]u ti[eề]n|gi[aá] th[eế] n[aà]o)`. -/
def rePrice : Re :=
  rcat [Re.grp 1 (Re.plusL .any), Re.plusG .ws,
        Re.alt (rcat [rlit "gi", rcls "aá", rlit " bao nhi", rcls "eê", rlit "u"])
          (Re.alt (rcat [rlit "bao nhi", rcls "eê", rlit "u ti", rcls "eề", rlit "n"])
            (rcat [rlit "gi", rcls "aá", rlit " th", rcls "eế", rlit " n",
                   rcls "aà", rlit "o"]))]

/-- The pattern of `_try_want` (lines 61-67). -/
def reWant : Re :=
  rcat [Re.alt
          (rcat [rlit "t", rcls "oô", rlit "i ",
                 Re.alt (rcat [rlit "mu", rcls "oố", rlit "n"])
                   (Re.alt (rcat [rlit "th", rcls "iíì", rlit "ch"])
                     (rcat [rlit "c", rcls "aầ", rlit "n"])),
                 rlit " ", rcls "aă", rlit "n"])
          (Re.alt (rcat [rlit "cho t", rcls "oô", rlit "i ", rcls "aă", rlit "n"])
            (Re.alt (rcat [rlit "toi ",
                           Re.alt (rlit "muon") (Re.alt (rlit "thich") (rlit "can")),
                           rlit " an"])
              (rlit "cho toi an"))),
        Re.plusG .ws, Re.grp 1 (Re.plusL .any),
        Re.alt (rcat [Re.starG .ws, Re.eol]) (rlit ".")]

/-- The detection pattern of `_try_suggest` (line 71):
`g[oợ]i [yý]|goi y|suggest|recommend`. -/
def reSuggestDetect : Re :=
  Re.alt (rcat [rlit "g", rcls "oợ", rlit "i ", rcls "yý"])
    (Re.alt (rlit "goi y") (Re.alt (rlit "suggest") (rlit "recommend")))

/-- The extraction pattern of `_try_suggest` (line 73):
`(?:g[oợ]i [yý]|goi y|suggest)\s+(?:m[oó]n\s+)?(.+?)(?:\s|$)`. -/
def reSuggestExtract : Re :=
  rcat [Re.alt (rcat [rlit "g", rcls "oợ", rlit "i ", rcls "yý"])
          (Re.alt (rlit "goi y") (rlit "suggest")),
        Re.plusG .ws,
        Re.opt (rcat [rlit "m", rcls "oó", rlit "n", Re.plusG .ws]),
        Re.grp 1 (Re.plusL .any),
        Re.alt (Re.ch .ws) Re.eol]

/-- An intent triple as returned by `parse_intent`:
(intent label, keyword, optional second keyword). -/
abbrev Intent := String × String × Option String

/-- `SimpleQueryHandler._try_compare`. -/
def tryCompare (q : String) : Option Intent :=
  (reSearch reCompare q).bind fun caps =>
    match capGroup caps 1, capGroup caps 2 with
    | some g1, some g2 => some ("price_compare", pystrip g1, some (pystrip g2))
    | _, _ => none

/-- `SimpleQueryHandler._try_price`. -/
def tryPrice (q : String) : Option Intent :=
  (reSearch rePrice q).bind fun caps =>
    (capGroup caps 1).map fun g1 => ("price_query", pystrip g1, none)

/-- `SimpleQueryHandler._try_want`. -/
def tryWant (q : String) : Option Intent :=
  (reSearch reWant q).bind fun caps =>
    (capGroup caps 1).map fun g1 => ("want_to_eat", pystrip g1, none)

/-- `SimpleQueryHandler._try_suggest`: if the detection pattern misses,
fail; else extract the keyword if the extraction pattern matches, and use
`""` otherwise. -/
def trySuggest (q : String) : Option Intent :=
  if ¬ reTest reSuggestDetect q then none
  else
    match (reSearch reSuggestExtract q).bind fun caps => capGroup caps 1 with
    | some g1 => some ("suggest", pystrip g1, none)
    | none => some ("suggest", "", none)

/-- `SimpleQueryHandler.parse_intent` (lines 39-48): lower-case and strip,
then the ordered cascade, with the Unknown fallback truncating to 40
characters. -/
def parse_intent (query : String) : Intent :=
  let q := pystrip (pylower query)
  (((tryCompare q).or ((tryPrice q).or ((tryWant q).or (trySuggest q)))).getD
    ("unknown", ⟨q.data.take 40⟩, none))

/-- `SimpleQueryHandler._fmt` (lines 135-139).  `//` is Python floor
division, `Int.fdiv` here. -/
def fmt (mn mx : Int) : String :=
  if mn ≤ 1 ∧ mx ≤ 1 then "Chưa có giá"
  else if mn = mx then toString (Int.fdiv mx 1000) ++ "k"
  else toString (Int.fdiv mn 1000) ++ "k–" ++ toString (Int.fdiv mx 1000) ++ "k"

/-- `SimpleQueryHandler._resp_want` (lines 98-107). -/
def respWant (kw : String) (items : List FoodItem) : String :=
  if items = [] then
    "Chưa tìm thấy quán **" ++ kw ++ "** nào. Thử từ khoá khác nhé! 🙏"
  else
    let lines := (items.take 5).enum.map fun ir =>
      toString (ir.1 + 1) ++ ". **" ++ ir.2.ten_quan ++ "** (" ++ ir.2.ten_mon
        ++ ")\n   📍 " ++ ir.2.dia_chi ++ ", " ++ ir.2.quan
        ++ "\n   💰 " ++ fmt ir.2.gia_min ir.2.gia_max
    "Tìm được **" ++ toString items.length ++ " quán " ++ kw ++ "** 🍽️\n\n"
      ++ String.intercalate "\n\n" lines

/-- The `priced` filter of `_resp_price` (line 110): records with a known
price. -/
def pricedOf (items : List FoodItem) : List FoodItem :=
  (items.filter fun r => r.gia_min > 1 || r.gia_max > 1).take 5

/-- `SimpleQueryHandler._resp_price` (lines 109-116).  `none` models the
`ValueError` Python's `min()`/`max()` raises on an empty sequence (lines
114-115): the code assumes some priced record has `gia_min > 1` and some
has `gia_max > 1`. -/
def respPrice (kw : String) (items : List FoodItem) : Option String :=
  let priced := pricedOf items
  if priced = [] then some ("Chưa có thông tin giá của **" ++ kw ++ "**.")
  else
    let lines := priced.map fun r =>
      "• **" ++ r.ten_quan ++ "**: " ++ fmt r.gia_min r.gia_max ++ " đ"
    match ((priced.filter fun r => r.gia_min > 1).map (·.gia_min)).min?,
          ((priced.filter fun r => r.gia_max > 1).map (·.gia_max)).max? with
    | some lo, some hi =>
        some ("💰 **Giá " ++ kw ++ ":**\n\n" ++ String.intercalate "\n" lines
          ++ "\n\n*Dao động: " ++ fmt lo hi ++ " đ*")
    | _, _ => none

/-- The `avg` closure of `_resp_compare` (line 119): the sum of
`(gia_min+gia_max)/2` over the priced records, divided by
`max(len(lst), 1)` — the full list length, not the priced count.  Python
computes this in floating point; it is modelled exactly in `ℚ`. -/
def avgCmp (lst : List FoodItem) : ℚ :=
  ((lst.filter fun r => r.gia_min > 1 || r.gia_max > 1).map
      (fun r => ((r.gia_min : ℚ) + (r.gia_max : ℚ)) / 2)).sum
    / (max lst.length 1 : ℚ)

/-- The `cmp` string of `_resp_compare` (lines 120-124): non-empty exactly
when both result lists are non-empty; ties name `k2`. -/
def compareCmp (k1 : String) (i1 : List FoodItem) (k2 : String)
    (i2 : List FoodItem) : String :=
  if i1 ≠ [] ∧ i2 ≠ [] then
    let winner := if avgCmp i1 < avgCmp i2 then k1 else k2
    "\n\n👉 **" ++ winner ++ "** thường rẻ hơn"
  else ""

/-- The `blk` closure of `_resp_compare` (line 125). -/
def compareBlk (k : String) (lst : List FoodItem) : String :=
  match lst with
  | [] => "**" ++ k ++ "**: N/A"
  | r :: _ => "**" ++ k ++ "**: " ++ fmt r.gia_min r.gia_max ++ " đ"

/-- `SimpleQueryHandler._resp_compare` (lines 118-126). -/
def respCompare (k1 : String) (i1 : List FoodItem) (k2 : String)
    (i2 : List FoodItem) : String :=
  "💰 So sánh giá:\n\n" ++ compareBlk k1 i1 ++ "\n" ++ compareBlk k2 i2
    ++ compareCmp k1 i1 k2 i2

/-- `SimpleQueryHandler._resp_suggest` (lines 128-133). -/
def respSuggest (kw : String) (items : List FoodItem) (meal : String) : String :=
  if items = [] then "Không tìm được gợi ý phù hợp."
  else
    let lines := (items.take 3).enum.map fun ir =>
      toString (ir.1 + 1) ++ ". **" ++ ir.2.ten_mon ++ "** – " ++ ir.2.ten_quan
        ++ " – " ++ fmt ir.2.gia_min ir.2.gia_max ++ " đ"
    let label := if kw ≠ "" then " " ++ kw else ""
    "🍽️ Gợi ý" ++ label ++ " " ++ meal ++ ":\n\n" ++ String.intercalate "\n" lines

end FoodAI.SimpleQueryHandler

namespace FoodAI.QueryRouter

open FoodAI

/-- `RouteDecision` (src/api/core/router.py lines 49-54). -/
structure RouteDecision where
  model : String
  max_output_tokens : Nat
  query_type : String
  reason : String
deriving DecidableEq, Repr

/-- `QueryRouter.get_meal_time` (lines 76-83). -/
def get_meal_time (hour : Int) : String :=
  if 6 ≤ hour ∧ hour < 10 then "Bữa sáng"
  else if 10 ≤ hour ∧ hour < 14 then "Bữa trưa"
  else if 14 ≤ hour ∧ hour < 17 then "Xế chiều"
  else if 17 ≤ hour ∧ hour < 21 then "Bữa tối"
  else "Ăn đêm"

/-- `HEAVY_PATTERNS` (lines 43-46).  Capture groups in the source only
bracket alternations and never feed a group read, so they are embedded as
plain alternations (grouping does not change whether `re.search` matches). -/
def HEAVY_RE : List Re :=
  [rcat [rlit "so s", rcls "aá", rlit "nh", Re.plusG .any,
         Re.alt (rcat [rlit "v", rcls "oớ", rlit "i"])
           (Re.alt (rcat [rlit "v", rcls "aà"]) (rlit "vs")),
         Re.plusG .any,
         Re.alt (rcat [rlit "v", rcls "oớ", rlit "i"])
           (Re.alt (rcat [rlit "v", rcls "aà"]) (rlit "vs"))],
   rcat [Re.alt (rcat [rlit "k", rcls "eế", rlit " ho", rcls "aạ", rlit "ch"])
           (rcat [rlit "l", rcls "iị", rlit "ch"]),
         Re.plusG .any,
         Re.alt (rcat [rcls "aă", rlit "n"]) (rcat [rlit "b", rcls "uữ", rlit "a"]),
         Re.plusG .any,
         Re.alt (rcat [rlit "c", rcls "aả", rlit " ng", rcls "aà", rlit "y"])
           (rcat [rlit "h", rcls "oô", rlit "m nay"])]]

/-- `COMPLEX_PATTERNS` (lines 29-41), same grouping note as `HEAVY_RE`. -/
def COMPLEX_RE : List Re :=
  [rcat [rlit "g", rcls "aầ", rlit "n ",
         Re.alt (rcat [rlit "t", rcls "oô", rlit "i"])
           (Re.alt (rcat [rcls "dđ", rcls "aâ", rlit "y"])
             (rcat [rlit "nh", rcls "aấ", rlit "t"]))],
   rcat [rlit "qu", rcls "aá", rlit "n ",
         Re.alt (rcat [rlit "g", rcls "aầ", rlit "n"])
           (Re.alt (rlit "xung quanh") (rcat [rlit "khu v", rcls "uự", rlit "c"]))],
   rcat [rlit "t", rcls "iì", rlit "m ",
         Re.alt (rcat [rlit "qu", rcls "aá", rlit "n"])
           (Re.alt (rcat [rlit "ch", rcls "oỗ", rlit " ", rcls "aă", rlit "n"])
             (rcat [rlit "nh", rcls "aà", rlit " h", rcls "aà", rlit "ng"]))],
   rcat [rlit "b", rcls "aâ", rlit "y gi", rcls "oờ", rlit " ",
         Re.alt (rcat [rlit "n", rcls "eê", rlit "n"])
           (Re.alt (rcat [rlit "c", rcls "oó", rlit " th", rcls "eể"])
             (rcat [rlit "mu", rcls "oố", rlit "n"]))],
   rcat [Re.alt (rcat [rlit "t", rcls "oố", rlit "i"])
           (Re.alt (rcat [rlit "tr", rcls "uư", rlit "a"])
             (Re.alt (rcat [rlit "s", rcls "aá", rlit "ng"])
               (rcat [rlit "chi", rcls "eề", rlit "u"]))),
         rlit " ",
         Re.alt (rlit "nay")
           (Re.alt (rcat [rlit "h", rcls "oô", rlit "m nay"])
             (rcat [rlit "n", rcls "aà", rlit "y"]))],
   rcat [rlit "l", rcls "uú", rlit "c ",
         Re.alt (rcat [rlit "n", rcls "aà", rlit "y"])
           (Re.alt (rcat [rlit "b", rcls "aâ", rlit "y gi", rcls "oờ"])
             (rcat [Re.plusG .digit, rlit "h"]))],
   rcat [rlit "ch", rcls "iỉ", rlit " ",
         Re.alt (rcat [rcls "dđ", rcls "uư", rcls "oờ", rlit "ng"])
           (Re.alt (rcat [rlit "t", rcls "oô", rlit "i"])
             (rcat [rlit "c", rcls "aá", rlit "ch ", rcls "dđ", rlit "i"]))],
   rcat [rlit "gan ", Re.alt (rlit "toi") (Re.alt (rlit "day") (rlit "nhat"))],
   rcat [rlit "tim ", Re.alt (rlit "quan") (rlit "cho an")],
   rlit "bay gio nen"]

/-- The location pattern of `_is_complex` (line 91):
`g[aầ]n|xung quanh|khu v[uự]c|gan|nearby`. -/
def reLocation : Re :=
  Re.alt (rcat [rlit "g", rcls "aầ", rlit "n"])
    (Re.alt (rlit "xung quanh")
      (Re.alt (rcat [rlit "khu v", rcls "uự", rlit "c"])
        (Re.alt (rlit "gan") (rlit "nearby"))))

/-- `QueryRouter._is_heavy` (lines 87-88). -/
def isHeavy (q : String) : Bool :=
  q.length > 200 || HEAVY_RE.any fun r => reTest r q

/-- `QueryRouter._is_complex` (lines 90-92). -/
def isComplex (q : String) (has_location : Bool) : Bool :=
  (has_location && reTest reLocation q)
    || (COMPLEX_RE.any fun r => reTest r q)
    || q.length > 100

/-- `QueryRouter.route` (lines 67-74). -/
def route (query : String) (has_location : Bool) : RouteDecision :=
  let q := pystrip query
  if isHeavy q then ⟨"gemini-pro", 1500, "heavy", "Query phức tạp nhiều tầng"⟩
  else if isComplex q has_location then
    ⟨"gemini-flash", 800, "complex", "Query location/time/đa điều kiện"⟩
  else ⟨"local", 256, "simple", "Simple – dùng template"⟩

end FoodAI.QueryRouter

namespace FoodAI.SimpleQueryHandler

open FoodAI

/-- `SimpleQueryHandler.handle` (lines 18-37 with the per-intent handlers,
lines 78-94).  The search callback is a pure function here, so the two
concurrent lookups of the compare path are its values at the two keywords;
`none` models an exception escaping `handle` (only the price path can
raise, see `respPrice`). -/
def handle (query : String) (fn : String → Nat → List FoodItem) (hour : Int) :
    Option (String × List FoodItem × Bool) :=
  let i := parse_intent query
  if i.1 = "want_to_eat" then
    some (respWant i.2.1 (fn i.2.1 10), fn i.2.1 10, true)
  else if i.1 = "price_query" then
    (respPrice i.2.1 (fn i.2.1 8)).map fun r => (r, fn i.2.1 8, true)
  else if i.1 = "price_compare" then
    let kw2 := i.2.2.getD ""
    some (respCompare i.2.1 (fn i.2.1 5) kw2 (fn kw2 5),
          fn i.2.1 5 ++ fn kw2 5, true)
  else if i.1 = "suggest" then
    let meal := QueryRouter.get_meal_time hour
    let items := fn (if i.2.1 ≠ "" then i.2.1 else meal) 8
    some (respSuggest i.2.1 items meal, items, true)
  else some ("", [], false)

end FoodAI.SimpleQueryHandler

namespace FoodAI.PromptBuilder

open FoodAI

/-- A raw conversation turn `{role, text}` as consumed by
`PromptBuilder.build_history` (src/api/core/prompt.py).  A missing `role`
or `text` key behaves like the empty string (`dict.get` returning `None`
is excluded by the same tests as `""`). -/
structure Turn where
  role : String
  text : String
deriving DecidableEq, Repr

/-- A Gemini-format turn `{role, parts: [{text}]}`. -/
structure GTurn where
  role : String
  parts : List String
deriving DecidableEq, Repr

/-- `MAX_HISTORY_TURNS` (line 9). -/
def MAX_HISTORY_TURNS : Nat := 6

/-- `PromptBuilder.trim_history` (lines 72-74): `history[-6:]`, i.e. the
last 6 turns (everything when fewer). -/
def trim_history (history : List Turn) : List Turn :=
  if history = [] then [] else history.drop (history.length - MAX_HISTORY_TURNS)

/-- The comprehension filter of `build_history` (line 69): role must be
`"user"` or `"model"` and the text non-empty. -/
def keepTurn (m : Turn) : Bool :=
  (m.role == "user" || m.role == "model") && m.text != ""

/-- `PromptBuilder.build_history` (lines 63-70): trim, then keep only
`user`/`model` turns with non-empty text, converting to Gemini format. -/
def build_history (raw : List Turn) : List GTurn :=
  ((trim_history raw).filter keepTurn).map fun m => ⟨m.role, [m.text]⟩

/-- `PromptBuilder.build_system` (lines 17-40). -/
def build_system (tier city : String) (hour : Int) (meal_time : String)
    (user_address : Option String) : String :=
  let loc := match user_address with
    | some a => "User ở: " ++ a ++ "."
    | none => "Không có địa chỉ."
  if tier = "local" then
    "AI ẩm thực – " ++ city ++ " – " ++ toString hour ++ "h (" ++ meal_time ++ ")."
  else if tier = "gemini-flash" then
    "Bạn là trợ lý ẩm thực AI cho " ++ city ++ ". Hiện tại: " ++ toString hour
      ++ "h (" ++ meal_time ++ "). " ++ loc
      ++ " Trả lời ngắn gọn, chính xác, tiếng Việt."
  else
    "Bạn là chuyên gia ẩm thực AI cho " ++ city ++ ".\nThời gian: "
      ++ toString hour ++ "h (" ++ meal_time ++ "). " ++ loc
      ++ "\nTư vấn món ăn, tìm quán gần user, gợi ý phù hợp.\n"
      ++ "Luôn trả lời tiếng Việt, thân thiện, cụ thể."

/-- `PromptBuilder._price_range` (lines 56-59). -/
def price_range (mn mx : Int) : String :=
  if mn ≤ 1 ∧ mx ≤ 1 then ""
  else ", " ++ toString (Int.fdiv mn 1000) ++ "k–" ++ toString (Int.fdiv mx 1000) ++ "k đ"

/-- `PromptBuilder._format_item` (lines 51-54). -/
def format_item (r : FoodItem) : String :=
  let note := if r.note ≠ "" then ", " ++ r.note else ""
  "- " ++ r.ten_quan ++ " (" ++ r.ten_mon ++ ") | " ++ r.dia_chi ++ ", "
    ++ r.quan ++ price_range r.gia_min r.gia_max ++ note

/-- `PromptBuilder.build_food_context` (lines 44-49). -/
def build_food_context (items : List FoodItem) : String :=
  if items = [] then ""
  else "Dữ liệu quán ăn:\n" ++ String.intercalate "\n" ((items.take 10).map format_item)

end FoodAI.PromptBuilder

namespace FoodAI.GeminiService

open FoodAI FoodAI.PromptBuilder

/-- `_MAX_TOKENS` (src/api/core/gemini.py lines 24-27): a dict with no
entry for tier `"local"`; `none` models the `KeyError` its lookup raises. -/
def MAX_TOKENS (tier : String) : Option Nat :=
  if tier = "gemini-flash" then some 800
  else if tier = "gemini-pro" then some 1500
  else none

/-- `GeminiService._build_params` (lines 119-130).  `datetime.now().hour`
is passed in as `hour`.  The only failing step is the `_MAX_TOKENS[tier]`
lookup; everything else is total. -/
def build_params (tier city : String) (max_tokens : Nat) (history : List Turn)
    (food_ctx : List FoodItem) (user_address : Option String) (hour : Int) :
    Option (String × List GTurn × Nat) :=
  (MAX_TOKENS tier).map fun ceil =>
    let meal := QueryRouter.get_meal_time hour
    let system := build_system tier city hour meal user_address
    let system := if food_ctx ≠ [] then system ++ "\n\n" ++ build_food_context food_ctx
                  else system
    (system, build_history history, min max_tokens ceil)

/-- The user-safe apology of `GeminiService.chat` (line 61), embedding the
exception type name. -/
def apology (exc : String) : String :=
  "Xin lỗi, AI đang gặp sự cố. (" ++ exc ++ ")"

/-- `GeminiService.chat` (lines 39-61).  The provider call is an oracle:
`.ok text` for a normal reply, `.error excName` for a raised provider
exception.  `_build_params` runs before the `try`, so its failure is an
uncaught exception, modelled as `.error`; provider failures inside the
`try` are converted to the apology string. -/
def chat (tier city : String) (max_tokens : Nat) (history : List Turn)
    (food_ctx : List FoodItem) (user_address : Option String) (hour : Int)
    (provider : Except String String) : Except String String :=
  match build_params tier city max_tokens history food_ctx user_address hour with
  | none => Except.error ("KeyError: " ++ tier)
  | some _ =>
      match provider with
      | Except.error e => Except.ok (apology e)
      | Except.ok t => Except.ok t

/-- An element of the worker/consumer queue of `GeminiService.stream`
(lines 78-102): a text chunk or the `DONE` sentinel. -/
inductive QItem where
  | text (s : String)
  | done
deriving DecidableEq, Repr

/-- The error fragment the worker enqueues on failure (line 90). -/
def errFragment (exc : String) : String := "\n[Lỗi: " ++ exc ++ "]"

/-- What the worker of `GeminiService.stream` (lines 81-92) enqueues, in
FIFO order, when the provider's chunk iterator yields `delivered` and then
raises `err` (or finishes normally when `err = none`): each non-empty chunk,
then on failure the single error fragment, then — in the `finally:` block —
the `DONE` sentinel. -/
def workerQueue (delivered : List String) (err : Option String) : List QItem :=
  ((delivered.filter fun c => c ≠ "").map QItem.text)
    ++ (match err with
        | some e => [QItem.text (errFragment e)]
        | none => [])
    ++ [QItem.done]

/-- The consumer loop of `GeminiService.stream` (lines 95-102): yield each
queued text chunk in order and stop at the `DONE` sentinel. -/
def consume : List QItem → List String
  | [] => []
  | QItem.done :: _ => []
  | QItem.text s :: rest => s :: consume rest

end FoodAI.GeminiService

namespace FoodAI.SearchService

open FoodAI

/-- The two retrieval backends of `SearchService`. -/
inductive Backend where
  | text
  | semantic
deriving DecidableEq, Repr

/-- One retrieval sub-call: which backend, the query text it receives and
how many results it is asked for. -/
structure RetrCall where
  backend : Backend
  query : String
  k : Nat
deriving DecidableEq, Repr

/-- `SearchService.text_search` (src/api/core/search.py lines 41-46) with
the storage lookup as an oracle `txtFn`, instrumented with the sub-call it
issues.  `.error` models the `ValueError` of `_validate_city`. -/
def text_search (txtFn : String → Nat → List FoodItem) (city keyword : String)
    (limit : Nat) : Except String (List FoodItem × List RetrCall) :=
  if city ∈ VALID_CITIES then
    Except.ok (txtFn keyword limit, [⟨Backend.text, keyword, limit⟩])
  else Except.error ("Unknown city: " ++ city)

/-- `SearchService.semantic_search` (lines 48-53), likewise. -/
def semantic_search (semFn : String → Nat → List FoodItem) (city query : String)
    (top_k : Nat) : Except String (List FoodItem × List RetrCall) :=
  if city ∈ VALID_CITIES then
    Except.ok (semFn query top_k, [⟨Backend.semantic, query, top_k⟩])
  else Except.error ("Unknown city: " ++ city)

/-- `SearchService.hybrid_search` (lines 55-62): validate the city, gather
`semantic_search(city, query, top_k)` and `text_search(city, query,
top_k // 2)` (in the order `asyncio.gather` lists them), then
`_merge(txt, sem, top_k)` with the text results as the priority list. -/
def hybrid_search (txtFn semFn : String → Nat → List FoodItem)
    (city query : String) (top_k : Nat) :
    Except String (List FoodItem × List RetrCall) :=
  if city ∈ VALID_CITIES then
    match semantic_search semFn city query top_k,
          text_search txtFn city query (top_k / 2) with
    | Except.ok (sem, c1), Except.ok (txt, c2) =>
        Except.ok (merge txt sem top_k, c1 ++ c2)
    | Except.error e, _ => Except.error e
    | _, Except.error e => Except.error e
  else Except.error ("Unknown city: " ++ city)

end FoodAI.SearchService

open FoodAI

namespace FoodAI

/-- Concrete records for the merge example of the specification:
`itemA` and `itemD` share id 1, `itemB` has id 2. -/
def itemA : FoodItem := ⟨1, "A", "pho", "", "", "", 10000, 20000, ""⟩

def itemD : FoodItem := ⟨1, "D", "bun", "", "", "", 30000, 40000, ""⟩

def itemB : FoodItem := ⟨2, "B", "com", "", "", "", 15000, 25000, ""⟩

/-- A record with both price bounds unknown (≤ 1). -/
def unpricedItem : FoodItem := ⟨1, "Quán X", "món x", "1 phố A", "q1", "ha_noi", 0, 0, ""⟩

/-- A record priced only through its max bound (`gia_min ≤ 1 < gia_max`). -/
def maxOnlyItem : FoodItem := ⟨1, "Quán Y", "phở", "2 phố B", "q2", "ha_noi", 0, 30000, ""⟩

end FoodAI

/-- C4: the fused list enumerates the priority (literal) results first in
their given order, then the secondary (vector) results in their given
order, keeps only the first occurrence of each id, and is truncated to
`top_k`; and merging priority=[A(id=1)] with secondary=[D(id=1), B(id=2)]
yields [A(id=1), B(id=2)]. -/
theorem C4_merge_dedup_truncate :
    (∀ (p s : List FoodItem) (k : Nat),
        SearchService.merge p s k = (dedupFrom [] (p ++ s)).take k)
      ∧ SearchService.merge [itemA] [itemD, itemB] 10 = [itemA, itemB] := by
  refine ⟨merge_eq_dedup, ?_⟩
  decide

/-- C9: when the streaming worker fails after its chunk iterator produced
`delivered`, the consumer receives exactly the non-empty chunks enqueued
before the failure, in FIFO order, followed by exactly one error fragment,
and then the stream ends (nothing follows the error fragment). -/
theorem C9_stream_error_tail :
    ∀ (delivered : List String) (e : String),
      GeminiService.consume (GeminiService.workerQueue delivered (some e))
        = delivered.filter (fun c => c ≠ "") ++ [GeminiService.errFragment e] := by
  intro d e
  induction d with
  | nil => rfl
  | cons c cs ih =>
      by_cases h : c = ""
      · have hq : GeminiService.workerQueue (c :: cs) (some e)
            = GeminiService.workerQueue cs (some e) := by
          simp [GeminiService.workerQueue, h]
        rw [hq, ih, h]
        simp
      · have hq : GeminiService.workerQueue (c :: cs) (some e)
            = GeminiService.QItem.text c :: GeminiService.workerQueue cs (some e) := by
          simp [GeminiService.workerQueue, h]
        rw [hq]
        show c :: GeminiService.consume (GeminiService.workerQueue cs (some e)) = _
        rw [ih]
        simp [h]

/-- C10: the claim as stated is false — the PriceCompare path of the
template responder concatenates the two lookups, so when both lookups
return the same record the returned item list carries a duplicate id. -/
theorem C10_counterexample :
    SimpleQueryHandler.handle "so sánh a và b" (fun _ _ => [unpricedItem]) 12
        = some (SimpleQueryHandler.respCompare "a" [unpricedItem] "b" [unpricedItem],
                [unpricedItem, unpricedItem], true)
      ∧ ¬ (([unpricedItem, unpricedItem].map (·.id)).Nodup) := by
  refine ⟨?_, by decide⟩
  rfl

/-- C10 amended: the merged output of `hybrid_search` never contains two
records with the same id, and each single-lookup template path
(want-to-eat, price, suggest) hands the search callback's result list back
unchanged whenever it returns a reply; but the PriceCompare path returns
the concatenation of its two lookups (which may repeat an id, see the
counterexample). -/
theorem C10_amended :
    (∀ (p s : List FoodItem) (k : Nat),
        ((SearchService.merge p s k).map (·.id)).Nodup)
      ∧ (∀ (q : String) (fn : String → Nat → List FoodItem) (hour : Int)
            (kw : String) (k2 : Option String),
          SimpleQueryHandler.parse_intent q = ("want_to_eat", kw, k2) →
          (SimpleQueryHandler.handle q fn hour).map (fun x => x.2.1)
            = some (fn kw 10))
      ∧ (∀ (q : String) (fn : String → Nat → List FoodItem) (hour : Int)
            (kw : String) (k2 : Option String),
          SimpleQueryHandler.parse_intent q = ("price_query", kw, k2) →
          (SimpleQueryHandler.handle q fn hour).map (fun x => x.2.1)
            = (SimpleQueryHandler.respPrice kw (fn kw 8)).map (fun _ => fn kw 8))
      ∧ (∀ (q : String) (fn : String → Nat → List FoodItem) (hour : Int)
            (kw : String) (k2 : Option String),
          SimpleQueryHandler.parse_intent q = ("suggest", kw, k2) →
          (SimpleQueryHandler.handle q fn hour).map (fun x => x.2.1)
            = some (fn (if kw ≠ "" then kw else QueryRouter.get_meal_time hour) 8))
      ∧ (∀ (q : String) (fn : String → Nat → List FoodItem) (hour : Int)
            (kw1 kw2 : String),
          SimpleQueryHandler.parse_intent q = ("price_compare", kw1, some kw2) →
          (SimpleQueryHandler.handle q fn hour).map (fun x => x.2.1)
            = some (fn kw1 5 ++ fn kw2 5)) := by
  refine ⟨?_, ?_, ?_, ?_, ?_⟩
  · intro p s k
    rw [merge_eq_dedup]
    have hnd := (dedupFrom_ids_nodup (p ++ s) []).1
    rw [List.map_take]
    exact hnd.sublist (List.take_sublist _ _)
  · intro q fn hour kw k2 hpq
    simp [SimpleQueryHandler.handle, hpq]
  · intro q fn hour kw k2 hpq
    cases hr : SimpleQueryHandler.respPrice kw (fn kw 8) <;>
      simp [SimpleQueryHandler.handle, hpq, hr]
  · intro q fn hour kw k2 hpq
    simp [SimpleQueryHandler.handle, hpq]
  · intro q fn hour kw1 kw2 hpq
    simp [SimpleQueryHandler.handle, hpq]

/-- C10 amended, witness: one instantiation per conjunct. -/
theorem C10_witness :
    ((SearchService.merge [itemA] [itemD, itemB] 10).map (·.id)).Nodup
      ∧ (SimpleQueryHandler.handle "tôi muốn ăn phở" (fun _ _ => [itemB]) 12).map
          (fun x => x.2.1) = some [itemB]
      ∧ (SimpleQueryHandler.handle "phở giá bao nhiêu" (fun _ _ => [itemA]) 12).map
          (fun x => x.2.1)
          = (SimpleQueryHandler.respPrice "phở" [itemA]).map (fun _ => [itemA])
      ∧ (SimpleQueryHandler.handle "gợi ý món ăn sáng" (fun _ _ => [itemD]) 7).map
          (fun x => x.2.1) = some [itemD]
      ∧ (SimpleQueryHandler.handle "so sánh phở và bún" (fun _ _ => [itemA]) 12).map
          (fun x => x.2.1) = some ([itemA] ++ [itemA]) :=
  ⟨C10_amended.1 [itemA] [itemD, itemB] 10,
   C10_amended.2.1 "tôi muốn ăn phở" (fun _ _ => [itemB]) 12 "phở" none (by decide),
   C10_amended.2.2.1 "phở giá bao nhiêu" (fun _ _ => [itemA]) 12 "phở" none (by decide),
   C10_amended.2.2.2.1 "gợi ý món ăn sáng" (fun _ _ => [itemD]) 7 "ăn" none (by decide),
   C10_amended.2.2.2.2 "so sánh phở và bún" (fun _ _ => [itemA]) 12 "phở" "bún" (by decide)⟩

/-- C1: false as stated — `hybrid_search` asks the vector-similarity
(semantic) search for `top_k` results and the literal text search for
`top_k // 2`, the reverse of the claimed budgets: at `top_k = 10` the two
sub-calls are semantic/10 and text/5, and no text sub-call requests 10. -/
theorem C1_counterexample :
    SearchService.hybrid_search (fun _ _ => []) (fun _ _ => []) "ha_noi" "pho" 10
        = Except.ok ([], [⟨SearchService.Backend.semantic, "pho", 10⟩,
                          ⟨SearchService.Backend.text, "pho", 5⟩])
      ∧ (⟨SearchService.Backend.text, "pho", 10⟩ : SearchService.RetrCall)
          ∉ [(⟨SearchService.Backend.semantic, "pho", 10⟩ : SearchService.RetrCall),
             ⟨SearchService.Backend.text, "pho", 5⟩] := by
  refine ⟨rfl, by decide⟩

/-- C1 amended: for every supported city, `hybrid_search` issues exactly
two retrieval sub-calls over the same query text — the vector-similarity
search asked for `top_k` results and the literal text search asked for
`top_k / 2` (integer division) — and merges with the text results as the
priority list. -/
theorem C1_amended :
    ∀ (txtFn semFn : String → Nat → List FoodItem) (city query : String) (k : Nat),
      city ∈ SearchService.VALID_CITIES →
      SearchService.hybrid_search txtFn semFn city query k
        = Except.ok (SearchService.merge (txtFn query (k / 2)) (semFn query k) k,
            [⟨SearchService.Backend.semantic, query, k⟩,
             ⟨SearchService.Backend.text, query, k / 2⟩]) := by
  intro txtFn semFn city query k h
  simp [SearchService.hybrid_search, SearchService.semantic_search,
        SearchService.text_search, h]

/-- C1 amended, witness. -/
theorem C1_witness :
    SearchService.hybrid_search (fun _ _ => []) (fun _ _ => []) "ha_noi" "pho" 10
      = Except.ok (SearchService.merge [] [] 10,
          [⟨SearchService.Backend.semantic, "pho", 10⟩,
           ⟨SearchService.Backend.text, "pho", 5⟩]) :=
  C1_amended (fun _ _ => []) (fun _ _ => []) "ha_noi" "pho" 10 (by decide)

/-- The retained history exactly as the claim words it: the last 6 turns,
minus every turn whose role is not `user` or `assistant` or whose text is
empty.  Stated from the claim for comparison with the code's
`build_history`, which accepts `user`/`model` instead. -/
def claimC3retained (h : List PromptBuilder.Turn) : List PromptBuilder.Turn :=
  (h.drop (h.length - 6)).filter fun m =>
    (m.role == "user" || m.role == "assistant") && m.text != ""

/-- C3: false as stated — the code keeps roles `user`/`model` (the Gemini
wire format), not `user`/`assistant`: a single non-empty `assistant` turn
is retained by the claim's rule but dropped by `build_history`. -/
theorem C3_counterexample :
    PromptBuilder.build_history [⟨"assistant", "hi"⟩] = []
      ∧ claimC3retained [⟨"assistant", "hi"⟩] = [⟨"assistant", "hi"⟩] := by
  constructor <;> rfl

/-- C3 amended: the history handed to generation consists of exactly the
last 6 turns of the input (all turns when fewer), in original relative
order, minus every turn whose role is not `user` or `model` or whose text
is empty; in particular for 9 turns that all pass the filter, exactly the
last 6 survive. -/
theorem C3_amended :
    (∀ h : List PromptBuilder.Turn,
        PromptBuilder.build_history h
          = ((h.drop (h.length - PromptBuilder.MAX_HISTORY_TURNS)).filter
              PromptBuilder.keepTurn).map fun m => ⟨m.role, [m.text]⟩)
      ∧ (∀ h : List PromptBuilder.Turn, h.length = 9 →
          (∀ t ∈ h, PromptBuilder.keepTurn t) →
          PromptBuilder.build_history h = (h.drop 3).map fun m => ⟨m.role, [m.text]⟩) := by
  have hmain : ∀ h : List PromptBuilder.Turn,
      PromptBuilder.build_history h
        = ((h.drop (h.length - PromptBuilder.MAX_HISTORY_TURNS)).filter
            PromptBuilder.keepTurn).map fun m => ⟨m.role, [m.text]⟩ := by
    intro h
    cases h with
    | nil => rfl
    | cons t ts => rfl
  refine ⟨hmain, ?_⟩
  intro h hlen hkeep
  rw [hmain h, hlen]
  have hfilter : (h.drop 3).filter PromptBuilder.keepTurn = h.drop 3 :=
    List.filter_eq_self.mpr fun a ha => hkeep a (List.mem_of_mem_drop ha)
  norm_num [PromptBuilder.MAX_HISTORY_TURNS, hfilter]

/-- C3 amended, witness: nine identical kept turns. -/
theorem C3_witness :
    PromptBuilder.build_history (List.replicate 9 ⟨"user", "x"⟩)
      = ((List.replicate 9 (⟨"user", "x"⟩ : PromptBuilder.Turn)).drop 3).map
          fun m => ⟨m.role, [m.text]⟩ :=
  C3_amended.2 (List.replicate 9 ⟨"user", "x"⟩) (by decide) (by decide)

set_option maxRecDepth 100000 in
/-- C5: false as stated — `route` strips the query before measuring it, so
a 201-character query that is mostly trailing spaces is classified
`simple`, not `heavy`. -/
theorem C5_counterexample :
    (String.mk ('a' :: List.replicate 200 ' ')).length > 200
      ∧ QueryRouter.route (String.mk ('a' :: List.replicate 200 ' ')) false
          = ⟨"local", 256, "simple", "Simple – dùng template"⟩ := by
  constructor
  · decide
  · rfl

/-- C5 amended: for every query whose *stripped* text is longer than 200
characters and either value of `has_location`, `route` returns the heavy
decision (tier `gemini-pro`, 1500 tokens, classification `heavy`),
regardless of which patterns the text matches. -/
theorem C5_amended :
    ∀ (q : String) (has_location : Bool),
      (pystrip q).length > 200 →
      QueryRouter.route q has_location
        = ⟨"gemini-pro", 1500, "heavy", "Query phức tạp nhiều tầng"⟩ := by
  intro q hl h
  have hheavy : QueryRouter.isHeavy (pystrip q) = true := by
    unfold QueryRouter.isHeavy
    rw [Bool.or_eq_true]
    exact Or.inl (decide_eq_true h)
  unfold QueryRouter.route
  simp [hheavy]

set_option maxRecDepth 8000 in
/-- C5 amended, witness: 201 letters. -/
theorem C5_witness :
    QueryRouter.route (String.mk (List.replicate 201 'a')) false
      = ⟨"gemini-pro", 1500, "heavy", "Query phức tạp nhiều tầng"⟩ :=
  C5_amended (String.mk (List.replicate 201 'a')) false (by decide)

/-- C8: false as stated — `_build_params` runs before the `try:` block of
`chat`, and its token-ceiling lookup `_MAX_TOKENS[tier]` has no entry for
tier `local`, so for that tier of the enum the `KeyError` raised while
clamping the token budget propagates uncaught instead of becoming an
apology string. -/
theorem C8_counterexample :
    GeminiService.chat "local" "ha_noi" 256 [] [] none 12 (Except.ok "hi")
      = Except.error "KeyError: local" := rfl

/-- C8 amended: for the tiers whose ceiling exists (`gemini-flash`,
`gemini-pro`), any provider failure during single-shot generation is
converted into the user-safe apology string embedding the error category,
and a provider success is returned as-is — no uncaught exception reaches
the caller; parameter-building faults (tier `local`) do propagate. -/
theorem C8_amended :
    ∀ (tier city : String) (mt : Nat) (hist : List PromptBuilder.Turn)
      (ctx : List FoodItem) (ua : Option String) (hour : Int),
      tier = "gemini-flash" ∨ tier = "gemini-pro" →
      (∀ e, GeminiService.chat tier city mt hist ctx ua hour (Except.error e)
          = Except.ok (GeminiService.apology e))
        ∧ (∀ t, GeminiService.chat tier city mt hist ctx ua hour (Except.ok t)
            = Except.ok t) := by
  intro tier city mt hist ctx ua hour htier
  rcases htier with rfl | rfl <;> exact ⟨fun e => rfl, fun t => rfl⟩

/-- C8 amended, witness: a provider quota error on the flash tier. -/
theorem C8_witness :
    GeminiService.chat "gemini-flash" "ha_noi" 800 [] [] none 12
        (Except.error "ResourceExhausted")
      = Except.ok (GeminiService.apology "ResourceExhausted") :=
  (C8_amended "gemini-flash" "ha_noi" 800 [] [] none 12 (Or.inl rfl)).1
    "ResourceExhausted"

/-- C2: false as stated — with one unpriced record on each side (no priced
record anywhere), `_resp_compare` still names a side: its gate is list
non-emptiness, not "has a priced record", its per-side value divides by the
total record count, and on the resulting exact tie (0 = 0) it names the
second keyword instead of calling the prices comparable. -/
theorem C2_counterexample :
    (([unpricedItem].filter fun r => r.gia_min > 1 || r.gia_max > 1) = [])
      ∧ SimpleQueryHandler.compareCmp "a" [unpricedItem] "b" [unpricedItem]
          = "\n\n👉 **b** thường rẻ hơn" := by
  refine ⟨by decide, ?_⟩
  have havg : SimpleQueryHandler.avgCmp [unpricedItem] = 0 := by
    simp [SimpleQueryHandler.avgCmp, unpricedItem]
  unfold SimpleQueryHandler.compareCmp
  rw [if_pos (⟨by simp, by simp⟩ :
    ([unpricedItem] : List FoodItem) ≠ [] ∧ ([unpricedItem] : List FoodItem) ≠ [])]
  simp only [havg, lt_irrefl, if_false]
  decide

/-- C2 amended: on a PriceCompare parse, `handle` fetches 5 records per
keyword and replies with `_resp_compare` over the two result lists; the
reply names a cheaper side iff both lists are non-empty (priced or not);
the named side is the first keyword exactly when its sum of `(min+max)/2`
over priced records divided by its total record count is strictly smaller,
and otherwise — including exact ties — the second keyword is named. -/
theorem C2_amended :
    (∀ (q : String) (fn : String → Nat → List FoodItem) (hour : Int)
        (kw1 kw2 : String),
        SimpleQueryHandler.parse_intent q = ("price_compare", kw1, some kw2) →
        SimpleQueryHandler.handle q fn hour
          = some (SimpleQueryHandler.respCompare kw1 (fn kw1 5) kw2 (fn kw2 5),
                  fn kw1 5 ++ fn kw2 5, true))
      ∧ (∀ (k1 k2 : String) (i1 i2 : List FoodItem),
          SimpleQueryHandler.compareCmp k1 i1 k2 i2 ≠ "" ↔ (i1 ≠ [] ∧ i2 ≠ []))
      ∧ (∀ (k1 k2 : String) (i1 i2 : List FoodItem),
          i1 ≠ [] → i2 ≠ [] →
          SimpleQueryHandler.compareCmp k1 i1 k2 i2
            = "\n\n👉 **"
                ++ (if SimpleQueryHandler.avgCmp i1 < SimpleQueryHandler.avgCmp i2
                    then k1 else k2)
                ++ "** thường rẻ hơn") := by
  refine ⟨?_, ?_, ?_⟩
  · intro q fn hour kw1 kw2 hpq
    simp [SimpleQueryHandler.handle, hpq]
  · intro k1 k2 i1 i2
    unfold SimpleQueryHandler.compareCmp
    by_cases hc : i1 ≠ [] ∧ i2 ≠ []
    · rw [if_pos hc]
      refine ⟨fun _ => hc, fun _ hEq => ?_⟩
      have hlen := congrArg String.length hEq
      rw [String.length_append, String.length_append] at hlen
      have h7 : 0 < String.length "\n\n👉 **" := by decide
      have h0 : String.length "" = 0 := rfl
      omega
    · rw [if_neg hc]
      exact ⟨fun hne => absurd rfl hne, fun hand => absurd hand hc⟩
  · intro k1 k2 i1 i2 h1 h2
    unfold SimpleQueryHandler.compareCmp
    rw [if_pos ⟨h1, h2⟩]

/-- C2 amended, witness. -/
theorem C2_witness :
    SimpleQueryHandler.handle "so sánh a và b" (fun _ _ => [unpricedItem]) 12
      = some (SimpleQueryHandler.respCompare "a" [unpricedItem] "b" [unpricedItem],
              [unpricedItem] ++ [unpricedItem], true) :=
  C2_amended.1 "so sánh a và b" (fun _ _ => [unpricedItem]) 12 "a" "b" (by decide)

/-- C6: false in its concrete scenario — the second capture group of the
compare pattern is lazy and stops at the first word boundary, so
`parse_intent("so sánh phở với bún chả")` extracts second keyword `bún`,
not `bún chả`. -/
theorem C6_counterexample :
    SimpleQueryHandler.parse_intent "so sánh phở với bún chả"
        = ("price_compare", "phở", some "bún")
      ∧ ("price_compare", "phở", (some "bún" : Option String))
          ≠ ("price_compare", "phở", some "bún chả") := by
  exact ⟨by decide, by decide⟩

/-- C6 amended: `parse_intent` evaluates compare → price → want-to-eat →
suggest → Unknown, first success winning; and on
"so sánh phở với bún chả" it yields PriceCompare with keywords `phở` and
`bún` (the lazy second group stops at the next word boundary). -/
theorem C6_amended :
    (∀ (q : String) (r : SimpleQueryHandler.Intent),
        SimpleQueryHandler.tryCompare (pystrip (pylower q)) = some r →
        SimpleQueryHandler.parse_intent q = r)
      ∧ (∀ (q : String) (r : SimpleQueryHandler.Intent),
          SimpleQueryHandler.tryCompare (pystrip (pylower q)) = none →
          SimpleQueryHandler.tryPrice (pystrip (pylower q)) = some r →
          SimpleQueryHandler.parse_intent q = r)
      ∧ (∀ (q : String) (r : SimpleQueryHandler.Intent),
          SimpleQueryHandler.tryCompare (pystrip (pylower q)) = none →
          SimpleQueryHandler.tryPrice (pystrip (pylower q)) = none →
          SimpleQueryHandler.tryWant (pystrip (pylower q)) = some r →
          SimpleQueryHandler.parse_intent q = r)
      ∧ (∀ (q : String) (r : SimpleQueryHandler.Intent),
          SimpleQueryHandler.tryCompare (pystrip (pylower q)) = none →
          SimpleQueryHandler.tryPrice (pystrip (pylower q)) = none →
          SimpleQueryHandler.tryWant (pystrip (pylower q)) = none →
          SimpleQueryHandler.trySuggest (pystrip (pylower q)) = some r →
          SimpleQueryHandler.parse_intent q = r)
      ∧ (∀ q : String,
          SimpleQueryHandler.tryCompare (pystrip (pylower q)) = none →
          SimpleQueryHandler.tryPrice (pystrip (pylower q)) = none →
          SimpleQueryHandler.tryWant (pystrip (pylower q)) = none →
          SimpleQueryHandler.trySuggest (pystrip (pylower q)) = none →
          SimpleQueryHandler.parse_intent q
            = ("unknown", String.mk ((pystrip (pylower q)).data.take 40), none))
      ∧ SimpleQueryHandler.parse_intent "so sánh phở với bún chả"
          = ("price_compare", "phở", some "bún") := by
  refine ⟨?_, ?_, ?_, ?_, ?_, by decide⟩
  · intro q r hc
    simp [SimpleQueryHandler.parse_intent, hc, Option.or]
  · intro q r hc hp
    simp [SimpleQueryHandler.parse_intent, hc, hp, Option.or]
  · intro q r hc hp hw
    simp [SimpleQueryHandler.parse_intent, hc, hp, hw, Option.or]
  · intro q r hc hp hw hs
    simp [SimpleQueryHandler.parse_intent, hc, hp, hw, hs, Option.or]
  · intro q hc hp hw hs
    simp [SimpleQueryHandler.parse_intent, hc, hp, hw, hs, Option.or]

/-- C6 amended, witness. -/
theorem C6_witness :
    SimpleQueryHandler.parse_intent "so sánh cơm với bún"
      = ("price_compare", "cơm", some "bún") :=
  C6_amended.1 "so sánh cơm với bún" ("price_compare", "cơm", some "bún") (by decide)

/-- C7: the code crashes on the claim's own safe set — for a result set
whose only priced record is priced through `gia_max` alone
(`gia_min ≤ 1 < gia_max`), the `priced` filter is non-empty, yet
`min(r.gia_min for r in priced if r.gia_min > 1)` at line 114 iterates an
empty sequence and raises `ValueError`, so `handle` aborts instead of
rendering the price lines and spread (modelled by `none`). -/
theorem C7_price_crash :
    SimpleQueryHandler.pricedOf [maxOnlyItem] = [maxOnlyItem]
      ∧ SimpleQueryHandler.respPrice "phở" [maxOnlyItem] = none
      ∧ SimpleQueryHandler.handle "phở giá bao nhiêu" (fun _ _ => [maxOnlyItem]) 12
          = none := by
  exact ⟨by decide, by decide, by decide⟩
